import Mathlib

/-!
Verification development for the CityDPC party-wall detection engine
(`citydpc/tools/partywall.py`, `citydpc/core/object/surfacegml.py`,
`citydpc/core/obejct/abstractBuilding.py`).

Numeric model: the Python code computes with IEEE floats; every float value
is a rational number and every comparison the code performs is an exact
comparison of the stored values, so the control flow is modelled exactly over
`ℚ`.  The transcendental helpers (`math.atan2`, `math.cos` and `math.sin`
inside the rotation helper) and the external `shapely` polygon backend are
not part of this repository; following the specification they are passed in
as components of an `Ops` record, so every theorem about the control flow
holds for the real backends as a special case.  The rotation helper itself
is additionally modelled exactly over `ℝ` for the round-trip claim.
-/

-- The rational arithmetic operations are sealed in the library; witnesses
-- evaluate the embedded functions on concrete rational inputs by kernel
-- reduction, which needs them reducible again.
set_option allowUnsafeReducibility true
attribute [semireducible] Rat.add Rat.sub Rat.mul Rat.inv Rat.ofScientific

namespace CityDPC

/-- 3D point or vector with rational coordinates. -/
abbrev Q3 := ℚ × ℚ × ℚ

/-- 2D point with rational coordinates. -/
abbrev Q2 := ℚ × ℚ

/-- dot product of 3-vectors (models `np.dot`). -/
def dot3 (a b : Q3) : ℚ := a.1 * b.1 + a.2.1 * b.2.1 + a.2.2 * b.2.2

/-- componentwise negation (models `-np.array`). -/
def neg3 (a : Q3) : Q3 := (-a.1, -a.2.1, -a.2.2)

/-- componentwise difference. -/
def sub3 (a b : Q3) : Q3 := (a.1 - b.1, a.2.1 - b.2.1, a.2.2 - b.2.2)

/-- cross product of 3-vectors (models `np.cross`). -/
def cross3 (a b : Q3) : Q3 :=
  (a.2.1 * b.2.2 - a.2.2 * b.2.1,
   a.2.2 * b.1 - a.1 * b.2.2,
   a.1 * b.2.1 - a.2.1 * b.1)

/-- A surface as consumed by the party-wall resolver: carries the data of a
`SurfaceGML` object that the resolver reads (`polygon_id`, `surface_type`,
`gml_surface_2array` and `normal_uni`). -/
structure SurfaceE where
  polygon_id : String
  surface_type : String
  ring : List Q3
  normal_uni : Q3
deriving DecidableEq

/-- A building-like entity (`AbstractBuilding`): a Building or BuildingPart
with its geometries, each geometry being its list of surfaces. -/
structure Entity where
  gml_id : String
  is_building_part : Bool
  parent_gml_id : String
  geometries : List (List SurfaceE)
deriving DecidableEq

/-- `GeometryGML.get_surfaces`: surfaces of one geometry whose type is in
`types` (all surfaces when `types` is empty). -/
def geomGetSurfaces (g : List SurfaceE) (types : List String) : List SurfaceE :=
  g.filter (fun s => types.isEmpty || types.contains s.surface_type)

/-- `AbstractBuilding.get_surfaces` restricted to a type filter (the calls in
`partywall.py` never pass geometry keys): concatenation over all geometries. -/
def getSurfaces (e : Entity) (types : List String) : List SurfaceE :=
  (e.geometries.map (fun g => geomGetSurfaces g types)).foldr (· ++ ·) []

/-- `AbstractBuilding.has_3Dgeometry`: true iff some single geometry has a
roof surface, a ground surface, and a wall or closure surface. -/
def hasThreeDGeometry (e : Entity) : Bool :=
  e.geometries.any (fun g =>
    !(geomGetSurfaces g ["RoofSurface"]).isEmpty &&
    !(geomGetSurfaces g ["GroundSurface"]).isEmpty &&
    (!(geomGetSurfaces g ["WallSurface"]).isEmpty ||
     !(geomGetSurfaces g ["ClosureSurface"]).isEmpty))

/-- One member of a shapely `GeometryCollection`: a `shapely.Polygon`
(exterior ring and area) or any other geometry type (with its area).
Intersections of two polygons never nest collections inside collections. -/
inductive SlyItem where
  | ipoly (ring : List Q2) (area : ℚ) : SlyItem
  | iother (area : ℚ) : SlyItem
deriving DecidableEq

/-- Result of a shapely 2D intersection, as the resolver inspects it:
an empty geometry, a `shapely.Polygon` (exterior ring and area), a
`shapely.GeometryCollection` of members, or any other geometry type
(with its area). -/
inductive SlyGeom where
  | empty : SlyGeom
  | poly (ring : List Q2) (area : ℚ) : SlyGeom
  | collection (items : List SlyItem) : SlyGeom
  | other (area : ℚ) : SlyGeom
deriving DecidableEq

/-- area of one member of a geometry collection. -/
def itemArea : SlyItem → ℚ
  | .ipoly _ a => a
  | .iother a => a

/-- `geometry.area` as read at the top-level intersection result: a
collection reports the sum of the areas of its members. -/
def slyArea : SlyGeom → ℚ
  | .empty => 0
  | .poly _ a => a
  | .collection items => (items.map itemArea).sum
  | .other a => a

/-- External operations used by `partywall.py`, all outside this repository:
`atan2` is `math.atan2` under float semantics, `rotate` is
`_rotate_polygon_around_point_in_x_y` under float `cos`/`sin` semantics,
`intersect` is shapely polygon intersection on 2D rings, and `groundHit`
models `not _create_buffered_polygon(c0).intersection(Polygon(c1)).is_empty`
(buffer 0.15). -/
structure Ops where
  atan2 : ℚ → ℚ → ℚ
  rotate : List Q3 → Q3 → ℚ → List Q3
  intersect : List Q2 → List Q2 → SlyGeom
  groundHit : List Q3 → List Q3 → Bool

/-- free-wall counters, keyed by the building-like entity. -/
abbrev FreeW := Entity → ℤ

/-- `entity.freeWalls -= 1`. -/
def decFW (fw : FreeW) (e : Entity) : FreeW :=
  fun x => if x = e then fw x - 1 else fw x

/-- The normal alignment test of `_find_party_walls` (lines 167-171):
normals exactly equal, exactly opposite, or absolute dot product above
0.9659. -/
def alignedTest (n0 n1 : Q3) : Bool :=
  decide (n0 = n1) || decide (n0 = neg3 n1) ||
    decide ((9659 : ℚ) / 10000 < |dot3 n0 n1|)

/-- the qualified identifier emitted in records (lines 234-247): building
parts are qualified with the parent id and a slash. -/
def entKey (e : Entity) : String :=
  if e.is_building_part then e.parent_gml_id ++ "/" ++ e.gml_id else e.gml_id

/-- One detected party wall:
`[id of b0, id of w0, id of b1, id of w1, area, collision coordinates]`. -/
structure PWRecord where
  id0 : String
  pid0 : String
  id1 : String
  pid1 : String
  area : ℚ
  contact : List Q3
deriving DecidableEq

/-- the float value of `math.pi / 2`, used when `delta_x == 0`. -/
def pyHalfPi : ℚ := 884279719003555 / 562949953421312

/-- `l[i]` on a point ring; the rings reaching the resolver come from valid
surfaces and have at least four points, the default is never read there. -/
def nth3 (l : List Q3) (i : ℕ) : Q3 := l.getD i (0, 0, 0)

/-- the data computed by lines 172-211 of `_find_party_walls`: both point
rings after rotation, the rotation angle and pivot (`None` when the normal
is already `±(0,1,0)`), and the target y. -/
structure RotData where
  poly0 : List Q3
  poly1 : List Q3
  radAngle : Option ℚ
  targetY : ℚ
  rotPoint : Option Q3

/-- lines 172-211: decide whether rotation is needed, compute the direction
deltas (falling back to the third point when the first two share x and y),
the angle (`π/2` when `delta_x == 0`), and rotate both rings. -/
def rotationData (ops : Ops) (s0 s1 : SurfaceE) : RotData :=
  if s0.normal_uni = ((0 : ℚ), (1 : ℚ), (0 : ℚ)) ∨
     s0.normal_uni = ((0 : ℚ), (-1 : ℚ), (0 : ℚ)) then
    ⟨s0.ring, s1.ring, none, (nth3 s0.ring 0).2.1, none⟩
  else
    let p0 := nth3 s0.ring 0
    let p1 := nth3 s0.ring 1
    let p2 := nth3 s0.ring 2
    let dd : ℚ × ℚ :=
      if ¬(p0.1 = p1.1 ∧ p0.2.1 = p1.2.1) then
        (p0.1 - p1.1, p0.2.1 - p1.2.1)
      else
        (p0.1 - p2.1, p0.2.1 - p2.2.1)
    let a := if dd.1 ≠ 0 then -(ops.atan2 dd.2 dd.1) else pyHalfPi
    ⟨ops.rotate s0.ring p0 a, ops.rotate s1.ring p0 a, some a, p0.2.1, some p0⟩

/-- `np.mean(poly, axis=0)[1]`: mean of the y coordinates. -/
def meanY (l : List Q3) : ℚ := (l.map (fun p => p.2.1)).sum / l.length

/-- `_get_collision_unrotated`: lift the 2D intersection ring back to 3D by
reinserting the target y, then undo the rotation when one was applied. -/
def getCollisionUnrotated (ops : Ops) (ring2 : List Q2) (rotCenter : Option Q3)
    (rotAngle : Option ℚ) (targetY : ℚ) : List Q3 :=
  let n := ring2.map (fun p => (p.1, targetY, p.2))
  match rotAngle with
  | some a => ops.rotate n (rotCenter.getD (0, 0, 0)) (-a)
  | none => n

/-- build one output record for an accepted intersection piece. -/
def mkRec (ops : Ops) (e0 e1 : Entity) (s0 s1 : SurfaceE) (rd : RotData)
    (ring2 : List Q2) (area : ℚ) : PWRecord :=
  ⟨entKey e0, s0.polygon_id, entKey e1, s1.polygon_id, area,
   getCollisionUnrotated ops ring2 rd.rotPoint rd.radAngle rd.targetY⟩

/-- lines 269-293: the loop over the members of a `GeometryCollection`,
threading the `hitS0`/`hitS1` flags and the free-wall counters. -/
def collectFold (ops : Ops) (e0 e1 : Entity) (s0 s1 : SurfaceE) (rd : RotData) :
    List SlyItem → Bool → Bool → FreeW → List PWRecord × Bool × Bool × FreeW
  | [], h0, h1, fw => ([], h0, h1, fw)
  | g :: gs, h0, h1, fw =>
    match g with
    | .ipoly ring2 area =>
      if 5 < area then
        let fwa := if h0 then fw else decFW fw e0
        let fwb := if h1 then fwa else decFW fwa e1
        let rest := collectFold ops e0 e1 s0 s1 rd gs true true fwb
        (mkRec ops e0 e1 s0 s1 rd ring2 area :: rest.1, rest.2)
      else collectFold ops e0 e1 s0 s1 rd gs h0 h1 fw
    | _ => collectFold ops e0 e1 s0 s1 rd gs h0 h1 fw

/-- lines 224-293: drop the rotated y axis, intersect, and apply the
`is_empty`, area and geometry-type dispatch.  At this point the local
`hitS1` flag of the Python loop is still `False`. -/
def processIntersection (ops : Ops) (e0 e1 : Entity) (s0 s1 : SurfaceE)
    (rd : RotData) (hitS0 : Bool) (fw : FreeW) : List PWRecord × Bool × FreeW :=
  let q0 := rd.poly0.map (fun p => (p.1, p.2.2))
  let q1 := rd.poly1.map (fun p => (p.1, p.2.2))
  let inter := ops.intersect q0 q1
  if inter = .empty then ([], hitS0, fw)
  else if 5 < slyArea inter then
    match inter with
    | .poly ring2 area =>
      let fwa := if hitS0 then fw else decFW fw e0
      let fwb := decFW fwa e1
      ([mkRec ops e0 e1 s0 s1 rd ring2 area], true, fwb)
    | .collection items =>
      let r := collectFold ops e0 e1 s0 s1 rd items hitS0 false fw
      (r.1, r.2.1, r.2.2.2)
    | _ => ([], hitS0, fw)
  else ([], hitS0, fw)

/-- the body of the inner loop of `_find_party_walls` for one surface pair:
normal alignment test, rotation, offset gate, then intersection. -/
def processPair (ops : Ops) (e0 e1 : Entity) (s0 s1 : SurfaceE)
    (hitS0 : Bool) (fw : FreeW) : List PWRecord × Bool × FreeW :=
  if alignedTest s0.normal_uni s1.normal_uni then
    let rd := rotationData ops s0 s1
    if (3 : ℚ) / 20 < |meanY rd.poly0 - meanY rd.poly1| then ([], hitS0, fw)
    else processIntersection ops e0 e1 s0 s1 rd hitS0 fw
  else ([], hitS0, fw)

/-- the loop `for surface_1 in b_1_surfaces` for a fixed `surface_0`. -/
def innerLoop (ops : Ops) (e0 e1 : Entity) (s0 : SurfaceE) :
    List SurfaceE → Bool → FreeW → List PWRecord × FreeW
  | [], _, fw => ([], fw)
  | s1 :: rest, h0, fw =>
    let r := processPair ops e0 e1 s0 s1 h0 fw
    let rr := innerLoop ops e0 e1 s0 rest r.2.1 r.2.2
    (r.1 ++ rr.1, rr.2)

/-- the loop `for surface_0 in b_0_surfaces`; `hitS0` restarts at `False`
for every `surface_0`. -/
def outerLoop (ops : Ops) (e0 e1 : Entity) (s1s : List SurfaceE) :
    List SurfaceE → FreeW → List PWRecord × FreeW
  | [], fw => ([], fw)
  | s0 :: rest, fw =>
    let r := innerLoop ops e0 e1 s0 s1s false fw
    let rr := outerLoop ops e0 e1 s1s rest r.2
    (r.1 ++ rr.1, rr.2)

/-- `_find_party_walls`: compare every wall-or-closure surface of `e0` with
every wall-or-closure surface of `e1`. -/
def findPartyWalls (ops : Ops) (e0 e1 : Entity) (fw : FreeW) :
    List PWRecord × FreeW :=
  outerLoop ops e0 e1 (getSurfaces e1 ["WallSurface", "ClosureSurface"])
    (getSurfaces e0 ["WallSurface", "ClosureSurface"]) fw

/-! ## The dataset-level orchestration (`get_party_walls`)

The orchestrator is modelled together with the list of `(entity, entity)`
pairs handed to `_find_party_walls` — the call trace — so claims about how
often a pair reaches the resolver are statements about the model itself. -/

/-- A `Building` object: its own entity data together with its
`building_parts` list (each part entity has `is_building_part = true`). -/
structure Building where
  ent : Entity
  bparts : List Entity
deriving DecidableEq

/-- an element of `polys_in_building_0`: a ground polygon tagged with the
entity stored under its `parent` key. -/
structure GPoly where
  poly_id : String
  coor : List Q3
  parentE : Entity
deriving DecidableEq

/-- `len(entity.get_surfaces(surfaceTypes=[WallSurface]))`. -/
def numWalls (e : Entity) : ℤ := (getSurfaces e ["WallSurface"]).length

/-- `entity.allWalls = len(walls); entity.freeWalls = entity.allWalls`. -/
def setFW (fw : FreeW) (e : Entity) : FreeW :=
  fun x => if x = e then numWalls e else fw x

/-- orchestration bookkeeping state: the `updNumOfWalls` key list and the
free-wall counters.  The Python list is only tested for membership, so the
insertion position is irrelevant. -/
abbrev OrchSt := List String × FreeW

/-- `if key not in updNumOfWalls: initialise counters; append key`. -/
def ensureFW (st : OrchSt) (k : String) (e : Entity) : OrchSt :=
  if st.1.contains k then st else (k :: st.1, setFW st.2 e)

/-- `dataset.get_building_by_id`. -/
def lookupBuilding (ds : List Building) (pid : String) : Option Building :=
  ds.find? (fun b => b.ent.gml_id = pid)

/-- lines 50-77: gather the tagged ground polygons of the building parts of
`building_0`.  A part ground is tagged with the PARENT BUILDING looked up by
`parent_gml_id`, not with the part itself.  The Python dict lookup raises on
a missing parent id; the model skips such grounds, and the concrete datasets
used below always resolve. -/
def gatherPartPolys (ds : List Building) (b0id : String) :
    List Entity → OrchSt → List GPoly × OrchSt
  | [], st => ([], st)
  | p :: rest, st =>
    if hasThreeDGeometry p then
      let st1 := ensureFW st (b0id ++ "/" ++ p.gml_id) p
      let polys := (getSurfaces p ["GroundSurface"]).filterMap (fun g =>
        (lookupBuilding ds p.parent_gml_id).map
          (fun pb => GPoly.mk g.polygon_id g.ring pb.ent))
      let r := gatherPartPolys ds b0id rest st1
      (polys ++ r.1, r.2)
    else gatherPartPolys ds b0id rest st

/-- lines 31-77: initialise the counters of `building_0` and collect
`polys_in_building_0` from the building body and its parts. -/
def gatherPolys (ds : List Building) (b : Building) (st : OrchSt) :
    List GPoly × OrchSt :=
  let st1 := ensureFW st b.ent.gml_id b.ent
  let own :=
    if hasThreeDGeometry b.ent then
      (getSurfaces b.ent ["GroundSurface"]).map
        (fun g => GPoly.mk g.polygon_id g.ring b.ent)
    else []
  let r := gatherPartPolys ds b.ent.gml_id b.bparts st1
  (own ++ r.1, r.2)

/-- lines 83-88: compare one gathered polygon against each later gathered
polygon of the same building group; every buffered-footprint hit invokes the
resolver on the two tagged parents (no break in this loop). -/
def selfInner (ops : Ops) (p0 : GPoly) :
    List GPoly → FreeW → List PWRecord × List (Entity × Entity) × FreeW
  | [], fw => ([], [], fw)
  | p1 :: rest, fw =>
    if ops.groundHit p0.coor p1.coor then
      let r := findPartyWalls ops p0.parentE p1.parentE fw
      let rr := selfInner ops p0 rest r.2
      (r.1 ++ rr.1, (p0.parentE, p1.parentE) :: rr.2.1, rr.2.2)
    else selfInner ops p0 rest fw

/-- lines 81-88: the self-collision double loop over
`polys_in_building_0`. -/
def selfLoop (ops : Ops) :
    List GPoly → FreeW → List PWRecord × List (Entity × Entity) × FreeW
  | [], fw => ([], [], fw)
  | p0 :: rest, fw =>
    let r := selfInner ops p0 rest fw
    let rr := selfLoop ops rest r.2.2
    (r.1 ++ rr.1, r.2.1 ++ rr.2.1, rr.2.2)

/-- lines 100-110 for one `poly_0`: scan the ground surfaces of the other
building-like entity and, at the FIRST buffered hit, invoke the resolver
once and break out of the ground scan. -/
def crossMainPoly (ops : Ops) (b1 : Entity) (p0 : GPoly) (fw : FreeW) :
    List PWRecord × List (Entity × Entity) × FreeW :=
  if (getSurfaces b1 ["GroundSurface"]).any (fun g => ops.groundHit p0.coor g.ring) then
    let r := findPartyWalls ops p0.parentE b1 fw
    (r.1, [(p0.parentE, b1)], r.2)
  else ([], [], fw)

/-- lines 100-110: the loop `for poly_0 in polys_in_building_0` against one
other building-like entity. -/
def crossMainLoop (ops : Ops) (b1 : Entity) :
    List GPoly → FreeW → List PWRecord × List (Entity × Entity) × FreeW
  | [], fw => ([], [], fw)
  | p :: ps, fw =>
    let r := crossMainPoly ops b1 p fw
    let rr := crossMainLoop ops b1 ps r.2.2
    (r.1 ++ rr.1, r.2.1 ++ rr.2.1, rr.2.2)

/-- lines 113-133: the loop over the building parts of `building_1`; the
counter initialisation happens for every part, the comparison only for parts
with 3D geometry. -/
def crossPartLoop (ops : Ops) (b1id : String) (polys : List GPoly) :
    List Entity → OrchSt → List PWRecord × List (Entity × Entity) × OrchSt
  | [], st => ([], [], st)
  | part :: rest, st =>
    let st1 := ensureFW st (b1id ++ "/" ++ part.gml_id) part
    if hasThreeDGeometry part then
      let r := crossMainLoop ops part polys st1.2
      let rr := crossPartLoop ops b1id polys rest (st1.1, r.2.2)
      (r.1 ++ rr.1, r.2.1 ++ rr.2.1, rr.2.2)
    else crossPartLoop ops b1id polys rest st1

/-- lines 91-133 for one later building: initialise its counters, compare
the gathered polygons against its body (if it has 3D geometry) and against
each of its parts. -/
def crossBuilding (ops : Ops) (polys : List GPoly) (b1 : Building)
    (st : OrchSt) : List PWRecord × List (Entity × Entity) × OrchSt :=
  let st1 := ensureFW st b1.ent.gml_id b1.ent
  let rMain :=
    if hasThreeDGeometry b1.ent then crossMainLoop ops b1.ent polys st1.2
    else ([], [], st1.2)
  let rParts := crossPartLoop ops b1.ent.gml_id polys b1.bparts (st1.1, rMain.2.2)
  (rMain.1 ++ rParts.1, rMain.2.1 ++ rParts.2.1, rParts.2.2)

/-- the loop `for building_1 in dataset.get_building_list()[i + 1:]`. -/
def crossAll (ops : Ops) (polys : List GPoly) :
    List Building → OrchSt → List PWRecord × List (Entity × Entity) × OrchSt
  | [], st => ([], [], st)
  | b1 :: rest, st =>
    let r := crossBuilding ops polys b1 st
    let rr := crossAll ops polys rest r.2.2
    (r.1 ++ rr.1, r.2.1 ++ rr.2.1, rr.2.2)

/-- the outer loop `for i, building_0 in enumerate(...)`; the remaining list
plays the role of `get_building_list()[i + 1:]`. -/
def mainLoop (ops : Ops) (ds : List Building) :
    List Building → OrchSt → List PWRecord × List (Entity × Entity) × OrchSt
  | [], st => ([], [], st)
  | b0 :: rest, st =>
    let g := gatherPolys ds b0 st
    let rSelf := selfLoop ops g.1 g.2.2
    let rCross := crossAll ops g.1 rest (g.2.1, rSelf.2.2)
    let rr := mainLoop ops ds rest rCross.2.2
    (rSelf.1 ++ rCross.1 ++ rr.1, rSelf.2.1 ++ rCross.2.1 ++ rr.2.1, rr.2.2)

/-- `get_party_walls(dataset)`: all detected party walls, together with the
resolver call trace and the final bookkeeping state.  `fw0` stands for the
(uninitialised) `freeWalls` attributes before the run. -/
def getPartyWalls (ops : Ops) (ds : List Building) (fw0 : FreeW) :
    List PWRecord × List (Entity × Entity) × OrchSt :=
  mainLoop ops ds ds ([], fw0)

/-! ## The `SurfaceGML` constructor (`surfacegml.py`)

The collinearity collapse only compares distances against the tolerance
0.01, and `hypot(h, norm(c)) <= tol` (with both arguments obtained by
dividing rational quantities by `norm(b - a)`) is equivalent to the rational
inequality `h² + |c|² ≤ tol² · |b-a|²`, so the collapse is modelled exactly
over `ℚ`.  The unit normal, area, tilt and compass orientation involve
square roots and arc functions and are modelled over `ℝ`. -/

/-- `list(zip(*[iter(flat)] * 3))`: group a flat coordinate list into point
triples, dropping a trailing remainder. -/
def chunk3 : List ℚ → List Q3
  | a :: b :: c :: rest => (a, b, c) :: chunk3 rest
  | _ => []

/-- `n_wise(points, 3)`: all consecutive triples. -/
def consecTriples : List Q3 → List (Q3 × Q3 × Q3)
  | a :: b :: c :: rest => (a, b, c) :: consecTriples (b :: c :: rest)
  | _ => []

/-- `SurfaceGML.check_if_points_on_line(p, a, b)` as a Boolean: whether the
clamped point-to-segment distance is at most the default tolerance 0.01
(`SurfaceConfig.DISTANCE_BETWEEN_LINE_AND_POINT`), in the equivalent
squared rational form.  When `a = b` the numpy code divides by a zero norm
and the resulting NaN comparisons keep the point. -/
def onLineQ (p a b : Q3) : Bool :=
  let d := sub3 b a
  let n := dot3 d d
  if n = 0 then false
  else
    let s := dot3 (sub3 a p) d
    let t := dot3 (sub3 p b) d
    let h := max s (max t 0)
    let c := cross3 (sub3 p a) d
    decide (h ^ 2 + dot3 c c ≤ n / 10000)

/-- the `useless_points` list: for each consecutive triple, the middle point
when it lies on the segment through its neighbours, else `None`. -/
def uselessOf (pts : List Q3) : List (Option Q3) :=
  (consecTriples pts).map
    (fun t => if onLineQ t.2.1 t.1 t.2.2 then some t.2.1 else none)

/-- the Python loop `for element in split_surface: if element in
useless_points: split_surface.remove(element)`: index-based iteration over
the list being mutated, `remove` deleting the first occurrence by value, so
removal shifts the next element under the cursor and it is skipped.  The
cursor advances once per iteration and the list never grows, so
`pts.length + 1` fuel always suffices. -/
def removeLoop (useless : List (Option Q3)) : ℕ → List Q3 → ℕ → List Q3
  | 0, cur, _ => cur
  | fuel + 1, cur, k =>
    if h : k < cur.length then
      let x := cur.get ⟨k, h⟩
      if some x ∈ useless then removeLoop useless fuel (cur.erase x) (k + 1)
      else removeLoop useless fuel cur (k + 1)
    else cur

/-- lines 48-61 of the constructor: split into triples, compute the
useless-point list from the original triples, then run the removal loop. -/
def collapseSurface (gml : List ℚ) : List Q3 :=
  let pts := chunk3 gml
  removeLoop (uselessOf pts) (pts.length + 1) pts 0

/-- 3D point or vector over `ℝ`. -/
abbrev R3 := ℝ × ℝ × ℝ

/-- cast a rational point to `ℝ`. -/
def q3r (p : Q3) : R3 := ((p.1 : ℝ), (p.2.1 : ℝ), (p.2.2 : ℝ))

/-- dot product over `ℝ`. -/
def dotR (a b : R3) : ℝ := a.1 * b.1 + a.2.1 * b.2.1 + a.2.2 * b.2.2

/-- difference over `ℝ`. -/
def subR (a b : R3) : R3 := (a.1 - b.1, a.2.1 - b.2.1, a.2.2 - b.2.2)

/-- cross product over `ℝ`. -/
def crossR (a b : R3) : R3 :=
  (a.2.1 * b.2.2 - a.2.2 * b.2.1,
   a.2.2 * b.1 - a.1 * b.2.2,
   a.1 * b.2.1 - a.2.1 * b.1)

/-- scalar multiple over `ℝ`. -/
def smulR (c : ℝ) (a : R3) : R3 := (c * a.1, c * a.2.1, c * a.2.2)

/-- `np.linalg.norm`. -/
noncomputable def normR (a : R3) : ℝ := Real.sqrt (dotR a a)

/-- `SurfaceGML._calculate_unit_normal`: the normalised cross product of the
vectors from the first point to the second and third; the zero vector when
`np.isclose(norm, 0)` (that is, `norm ≤ 1e-8`). -/
noncomputable def calcUnitNormal (p1 p2 p3 : R3) : R3 :=
  let c := crossR (subR p2 p1) (subR p3 p1)
  if normR c ≤ 1 / 100000000 then ((0 : ℝ), (0 : ℝ), (0 : ℝ))
  else smulR (1 / normR c) c

/-- the cyclic cross-product sum of `SurfaceGML.poly_area`. -/
def shoelaceQ (poly : List Q3) : Q3 :=
  ((poly.zip (poly.rotate 1)).map (fun pq => cross3 pq.1 pq.2)).foldr
    (fun v acc => (v.1 + acc.1, v.2.1 + acc.2.1, v.2.2 + acc.2.2)) (0, 0, 0)

/-- `SurfaceGML.poly_area`: zero for fewer than 3 points, otherwise half the
absolute dot product of the cyclic cross-product sum with the unit
normal. -/
noncomputable def polyAreaR (poly : List Q3) (n : R3) : ℝ :=
  if poly.length < 3 then 0 else |dotR (q3r (shoelaceQ poly)) n| / 2

/-- `np.rad2deg`. -/
noncomputable def rad2deg (x : ℝ) : ℝ := x * (180 / Real.pi)

/-- `SurfaceGML.get_gml_tilt`: arc-cosine of the clipped absolute z
component of the unit normal, in degrees, 180 folding to 0.  The clip to
`[-1, 1]` makes the arc-cosine total, so the NaN branch of the Python code
is unreachable. -/
noncomputable def gmlTilt (n : R3) : ℝ :=
  let d := rad2deg (Real.arccos (min (max |n.2.2| (-1)) 1))
  if d = 180 then 0 else d

/-- `np.arctan2` over `ℝ`. -/
noncomputable def arcTan2 (y x : ℝ) : ℝ :=
  if 0 < x then Real.arctan (y / x)
  else if x < 0 ∧ 0 ≤ y then Real.arctan (y / x) + Real.pi
  else if x < 0 then Real.arctan (y / x) - Real.pi
  else if 0 < y then Real.pi / 2
  else if y < 0 then -(Real.pi / 2)
  else 0

/-- Python float `%` on reals (sign follows the divisor). -/
noncomputable def fmodR (a b : ℝ) : ℝ := a - b * ⌊a / b⌋

/-- `SurfaceGML.get_gml_orientation`: the horizontal-surface sentinels via
`np.isclose` (tolerance `1e-8 + 1e-5`), otherwise the compass angle from the
azimuth of the horizontal normal projection. -/
noncomputable def gmlOrient (n : R3) : ℝ :=
  if |n.2.2 - 1| ≤ 1 / 100000000 + 1 / 100000 then -1
  else if |n.2.2 + 1| ≤ 1 / 100000000 + 1 / 100000 then -2
  else fmodR (450 - rad2deg (arcTan2 n.2.1 n.1)) 360

/-- The state of a `SurfaceGML` object after construction: validity flag,
the retained (collapsed) point triples, and the derived attributes, `none`
when construction returned early. -/
structure SurfaceModel where
  isSurface : Bool
  retained : List Q3
  normalF : Option R3
  areaF : Option ℝ
  tiltF : Option ℝ
  orientF : Option ℝ
  stypeF : Option String

/-- `SurfaceGML.__init__` for a flat coordinate list and an optional given
surface type: collapse collinear points, mark the surface invalid (leaving
every derived attribute unset) when fewer than 12 flat coordinates remain,
otherwise derive the unit normal, area, orientation and tilt and infer the
surface type when none was given.  The optional planarity check only logs a
warning and is omitted. -/
noncomputable def mkSurfaceGML (gml : List ℚ) (stype0 : Option String) :
    SurfaceModel :=
  let pts := collapseSurface gml
  if 3 * pts.length < 12 then ⟨false, pts, none, none, none, none, stype0⟩
  else
    let n := calcUnitNormal (q3r (nth3 pts 0)) (q3r (nth3 pts 1)) (q3r (nth3 pts 2))
    let areaV := polyAreaR pts n
    let orientV := gmlOrient n
    let tiltV := gmlTilt n
    let st :=
      match stype0 with
      | some t => some t
      | none =>
        if tiltV = 0 ∧ orientV = -2 then some "GroundSurface"
        else if tiltV = 90 then some "WallSurface"
        else some "RoofSurface"
    ⟨true, pts, some n, some areaV, some tiltV, some orientV, st⟩

/-- the guard of `_add_cityjson_surface_to_building` (cityjsonInput.py line
614): a surface is added to a geometry only when `isSurface` holds, so an
invalid surface never enters any surface collection. -/
def addSurfaceIfValid (l : List SurfaceModel) (s : SurfaceModel) :
    List SurfaceModel :=
  if s.isSurface then l ++ [s] else l

/-! ## The rotation helper (`_rotate_polygon_around_point_in_x_y`)

modelled exactly over `ℝ` with the mathematical `cos`/`sin` the float code
approximates. -/

/-- rotation of one point about a pivot, in the x-y plane only; z is copied
through unchanged. -/
noncomputable def rotatePointXY (c : R3) (θ : ℝ) (p : R3) : R3 :=
  (c.1 + Real.cos θ * (p.1 - c.1) - Real.sin θ * (p.2.1 - c.2.1),
   c.2.1 + Real.sin θ * (p.1 - c.1) + Real.cos θ * (p.2.1 - c.2.1),
   p.2.2)

/-- `_rotate_polygon_around_point_in_x_y`: rotate every point of the
polygon. -/
noncomputable def rotatePolyXY (poly : List R3) (c : R3) (θ : ℝ) : List R3 :=
  poly.map (rotatePointXY c θ)

/-! ## A concrete backend for witnesses

The concrete scenarios below use only axis-aligned rectangles whose shapely
results are their bounding-box intersections; `rectIntersect` and
`rectGroundHit` are that behaviour, and the rotation branch is never taken
(all wall normals are `±(0,1,0)`), so the stub rotation is never invoked. -/

/-- minimum of a rational list (0 for the empty list, which no scenario
uses). -/
def listMin : List ℚ → ℚ
  | [] => 0
  | x :: xs => xs.foldl min x

/-- maximum of a rational list. -/
def listMax : List ℚ → ℚ
  | [] => 0
  | x :: xs => xs.foldl max x

/-- shapely intersection of two axis-aligned rectangles: the bounding-box
overlap, empty when there is no 2D overlap (an edge or corner touch yields a
lower-dimensional geometry, which the resolver drops the same way). -/
def rectIntersect (p q : List Q2) : SlyGeom :=
  let lox := max (listMin (p.map Prod.fst)) (listMin (q.map Prod.fst))
  let hix := min (listMax (p.map Prod.fst)) (listMax (q.map Prod.fst))
  let loy := max (listMin (p.map Prod.snd)) (listMin (q.map Prod.snd))
  let hiy := min (listMax (p.map Prod.snd)) (listMax (q.map Prod.snd))
  if hix ≤ lox ∨ hiy ≤ loy then SlyGeom.empty
  else SlyGeom.poly
    [(lox, loy), (hix, loy), (hix, hiy), (lox, hiy), (lox, loy)]
    ((hix - lox) * (hiy - loy))

/-- the buffered-footprint test for two axis-aligned ground rectangles
(z ignored): the first bounding box grown by 0.15 meets the second. -/
def rectGroundHit (c0 c1 : List Q3) : Bool :=
  let a := c0.map (fun p => p.1)
  let ay := c0.map (fun p => p.2.1)
  let b := c1.map (fun p => p.1)
  let byy := c1.map (fun p => p.2.1)
  decide (listMin b ≤ listMax a + 3 / 20 ∧ listMin a - 3 / 20 ≤ listMax b ∧
    listMin byy ≤ listMax ay + 3 / 20 ∧ listMin ay - 3 / 20 ≤ listMax byy)

/-- the concrete backend: rectangle intersection and footprint test; the
`atan2` and rotation stubs are unreachable in the scenarios (no scenario
wall needs rotation). -/
def rectOps : Ops :=
  Ops.mk (fun _ _ => 0) (fun l _ _ => l) rectIntersect rectGroundHit

/-- an axis-aligned wall ring spanning `[x0, x1] × [z0, z1]` in the plane
`y = y0`. -/
def wallRing (x0 x1 y0 z0 z1 : ℚ) : List Q3 :=
  [(x0, y0, z0), (x1, y0, z0), (x1, y0, z1), (x0, y0, z1), (x0, y0, z0)]

/-- an axis-aligned ground ring spanning `[x0, x1] × [y0, y1]` at `z = 0`. -/
def groundRing (x0 x1 y0 y1 : ℚ) : List Q3 :=
  [(x0, y0, 0), (x1, y0, 0), (x1, y1, 0), (x0, y1, 0), (x0, y0, 0)]

/-- `if b then 0 else 1`, the potential used for the free-wall counter
invariants: a decrement happens exactly when a hit flag flips. -/
def hInd (b : Bool) : ℤ := if b then 0 else 1

/-- the all-zero free-wall state used by concrete scenarios. -/
def zeroFW : FreeW := fun _ => 0

/-! ### Concrete scenarios -/

/-- building A, wall 1: `[0,10] × [0,5]` in the plane `y = 0`. -/
def wA1 : SurfaceE := ⟨"wA1", "WallSurface", wallRing 0 10 0 0 5, (0, 1, 0)⟩

/-- building A, wall 2: `[0,8] × [0,5]` in the plane `y = 0`. -/
def wA2 : SurfaceE := ⟨"wA2", "WallSurface", wallRing 0 8 0 0 5, (0, 1, 0)⟩

/-- building B, single wall: `[0,10] × [0,5]` in the plane `y = 0`,
coincident with both walls of building A. -/
def wB : SurfaceE := ⟨"wB", "WallSurface", wallRing 0 10 0 0 5, (0, 1, 0)⟩

/-- building A with two coincident walls. -/
def entA : Entity := ⟨"A", false, "", [[wA1, wA2]]⟩

/-- building B with one wall. -/
def entB : Entity := ⟨"B", false, "", [[wB]]⟩

/-- counters initialised to the wall counts of A and B. -/
def fw6 : FreeW := fun e => if e = entA then 2 else 1

/-- a wall with normal `(1,0,0)`, not aligned with the walls of A. -/
def wD : SurfaceE := ⟨"wD", "WallSurface", wallRing 0 10 0 0 5, (1, 0, 0)⟩

/-- building D holding the misaligned wall. -/
def entD : Entity := ⟨"D", false, "", [[wD]]⟩

/-- a wall parallel to `wA1` but offset to `y = 0.2`, past the 0.15 gate. -/
def w3b : SurfaceE := ⟨"w3b", "WallSurface", wallRing 0 10 (1/5) 0 5, (0, 1, 0)⟩

/-- building E holding the offset wall. -/
def entE : Entity := ⟨"E", false, "", [[w3b]]⟩

/-- a two-piece intersection result: polygon pieces of areas 6 and 3 and a
degenerate member. -/
def items4 : List SlyItem :=
  [SlyItem.ipoly [(0, 0), (3, 0), (3, 2), (0, 2), (0, 0)] 6,
   SlyItem.ipoly [(5, 0), (6, 0), (6, 1), (5, 1), (5, 0)] 3,
   SlyItem.iother 0]

/-- a backend whose intersection always decomposes into `items4`. -/
def ops4 : Ops :=
  Ops.mk (fun _ _ => 0) (fun l _ _ => l) (fun _ _ => SlyGeom.collection items4)
    rectGroundHit

/-- the record produced by the `wA1`/`wB` pair. -/
def recA1B : PWRecord :=
  ⟨"A", "wA1", "B", "wB", 50,
   [(0, 0, 0), (10, 0, 0), (10, 0, 5), (0, 0, 5), (0, 0, 0)]⟩

/-- building A5 for the orchestration scenario: one roof, TWO overlapping
ground polygons, one small wall. -/
def entA5 : Entity :=
  ⟨"A5", false, "",
   [[⟨"rA", "RoofSurface", [], (0, 0, 1)⟩,
     ⟨"gA1", "GroundSurface", groundRing 0 10 0 10, (0, 0, -1)⟩,
     ⟨"gA2", "GroundSurface", groundRing 2 10 0 10, (0, 0, -1)⟩,
     ⟨"wA", "WallSurface", wallRing 0 1 0 0 1, (0, 1, 0)⟩]]⟩

/-- building B5, adjacent to both ground polygons of A5; its wall normal is
not aligned with the wall of A5, so no records are produced. -/
def entB5 : Entity :=
  ⟨"B5", false, "",
   [[⟨"rB", "RoofSurface", [], (0, 0, 1)⟩,
     ⟨"gB", "GroundSurface", groundRing 10 20 0 10, (0, 0, -1)⟩,
     ⟨"wB5", "WallSurface", wallRing 0 1 0 0 1, (1, 0, 0)⟩]]⟩

/-- the two-building dataset for the orchestration scenario. -/
def ds5 : List Building := [⟨entA5, []⟩, ⟨entB5, []⟩]

/-- an entity whose roof lives in one geometry and whose ground and wall
live in another. -/
def entC9 : Entity :=
  ⟨"X", false, "",
   [[⟨"r", "RoofSurface", [], (0, 0, 1)⟩],
    [⟨"g", "GroundSurface", [], (0, 0, -1)⟩,
     ⟨"w", "WallSurface", [], (0, 1, 0)⟩]]⟩

/-- five collinear points (first repeated last), none of which the collapse
removes: each middle point lies outside the segment through its
neighbours. -/
def ex7 : List ℚ := [0, 0, 0, 2, 0, 0, 1, 0, 0, 3, 0, 0, 0, 0, 0]

/-- a degenerate three-point ring: fewer than 12 coordinates remain. -/
def exBad : List ℚ := [0, 0, 0, 1, 0, 0, 0, 0, 0]

/-! ## Helper lemmas: record provenance and areas -/

theorem mkRec_area (ops : Ops) (e0 e1 : Entity) (s0 s1 : SurfaceE)
    (rd : RotData) (ring2 : List Q2) (a : ℚ) :
    (mkRec ops e0 e1 s0 s1 rd ring2 a).area = a := rfl

theorem collectFold_mem (ops : Ops) (e0 e1 : Entity) (s0 s1 : SurfaceE)
    (rd : RotData) (items : List SlyItem) :
    ∀ (h0 h1 : Bool) (fw : FreeW) (r : PWRecord),
      r ∈ (collectFold ops e0 e1 s0 s1 rd items h0 h1 fw).1 →
      5 < r.area ∧ r.pid0 = s0.polygon_id ∧ r.pid1 = s1.polygon_id := by
  induction items with
  | nil => intro h0 h1 fw r hr; simp [collectFold] at hr
  | cons g gs ih =>
    intro h0 h1 fw r hr
    cases g with
    | ipoly ring2 a =>
      by_cases ha : 5 < a
      · simp only [collectFold, if_pos ha] at hr
        rcases List.mem_cons.mp hr with h | h
        · subst h; exact ⟨ha, rfl, rfl⟩
        · exact ih true true _ r h
      · simp only [collectFold, if_neg ha] at hr
        exact ih h0 h1 fw r hr
    | iother a =>
      simp only [collectFold] at hr
      exact ih h0 h1 fw r hr

theorem processIntersection_mem (ops : Ops) (e0 e1 : Entity) (s0 s1 : SurfaceE)
    (rd : RotData) (h : Bool) (fw : FreeW) (r : PWRecord)
    (hr : r ∈ (processIntersection ops e0 e1 s0 s1 rd h fw).1) :
    5 < r.area ∧ r.pid0 = s0.polygon_id ∧ r.pid1 = s1.polygon_id := by
  simp only [processIntersection] at hr
  cases hcase : ops.intersect (List.map (fun p => (p.1, p.2.2)) rd.poly0)
      (List.map (fun p => (p.1, p.2.2)) rd.poly1) with
  | empty => rw [hcase] at hr; simp at hr
  | poly ring2 a =>
    rw [hcase] at hr
    by_cases ha : 5 < a
    · simp only [slyArea, if_pos ha, reduceCtorEq, if_false, List.mem_singleton] at hr
      subst hr
      exact ⟨ha, rfl, rfl⟩
    · simp [slyArea, ha] at hr
  | collection items =>
    rw [hcase] at hr
    by_cases ha : 5 < slyArea (SlyGeom.collection items)
    · simp only [if_pos ha, reduceCtorEq, if_false] at hr
      exact collectFold_mem ops e0 e1 s0 s1 rd items h false fw r hr
    · simp [ha] at hr
  | other a =>
    rw [hcase] at hr
    simp at hr

theorem processPair_mem (ops : Ops) (e0 e1 : Entity) (s0 s1 : SurfaceE)
    (h : Bool) (fw : FreeW) (r : PWRecord)
    (hr : r ∈ (processPair ops e0 e1 s0 s1 h fw).1) :
    alignedTest s0.normal_uni s1.normal_uni = true ∧
      5 < r.area ∧ r.pid0 = s0.polygon_id ∧ r.pid1 = s1.polygon_id := by
  unfold processPair at hr
  by_cases hal : alignedTest s0.normal_uni s1.normal_uni
  · rw [if_pos hal] at hr
    by_cases hg : (3 : ℚ) / 20 <
        |meanY (rotationData ops s0 s1).poly0 - meanY (rotationData ops s0 s1).poly1|
    · rw [if_pos hg] at hr; simp at hr
    · rw [if_neg hg] at hr
      exact ⟨hal, processIntersection_mem ops e0 e1 s0 s1 _ h fw r hr⟩
  · simp [hal] at hr

theorem innerLoop_mem (ops : Ops) (e0 e1 : Entity) (s0 : SurfaceE)
    (s1s : List SurfaceE) :
    ∀ (h : Bool) (fw : FreeW) (r : PWRecord),
      r ∈ (innerLoop ops e0 e1 s0 s1s h fw).1 →
      ∃ s1 ∈ s1s, alignedTest s0.normal_uni s1.normal_uni = true ∧
        5 < r.area ∧ r.pid0 = s0.polygon_id ∧ r.pid1 = s1.polygon_id := by
  induction s1s with
  | nil => intro h fw r hr; simp [innerLoop] at hr
  | cons s1 rest ih =>
    intro h fw r hr
    simp only [innerLoop, List.mem_append] at hr
    rcases hr with hr | hr
    · obtain ⟨hal, harea, hp0, hp1⟩ := processPair_mem ops e0 e1 s0 s1 h fw r hr
      exact ⟨s1, List.mem_cons_self s1 rest, hal, harea, hp0, hp1⟩
    · obtain ⟨s1', hmem, rest'⟩ := ih _ _ r hr
      exact ⟨s1', List.mem_cons_of_mem s1 hmem, rest'⟩

theorem outerLoop_mem (ops : Ops) (e0 e1 : Entity) (s1s : List SurfaceE)
    (s0s : List SurfaceE) :
    ∀ (fw : FreeW) (r : PWRecord),
      r ∈ (outerLoop ops e0 e1 s1s s0s fw).1 →
      ∃ s0 ∈ s0s, ∃ s1 ∈ s1s, alignedTest s0.normal_uni s1.normal_uni = true ∧
        5 < r.area ∧ r.pid0 = s0.polygon_id ∧ r.pid1 = s1.polygon_id := by
  induction s0s with
  | nil => intro fw r hr; simp [outerLoop] at hr
  | cons s0 rest ih =>
    intro fw r hr
    simp only [outerLoop, List.mem_append] at hr
    rcases hr with hr | hr
    · obtain ⟨s1, hmem, rest'⟩ := innerLoop_mem ops e0 e1 s0 s1s false fw r hr
      exact ⟨s0, List.mem_cons_self s0 rest, s1, hmem, rest'⟩
    · obtain ⟨s0', hmem0, rest'⟩ := ih _ r hr
      exact ⟨s0', List.mem_cons_of_mem s0 hmem0, rest'⟩

theorem findPartyWalls_mem (ops : Ops) (e0 e1 : Entity) (fw : FreeW)
    (r : PWRecord) (hr : r ∈ (findPartyWalls ops e0 e1 fw).1) :
    ∃ s0 ∈ getSurfaces e0 ["WallSurface", "ClosureSurface"],
      ∃ s1 ∈ getSurfaces e1 ["WallSurface", "ClosureSurface"],
        alignedTest s0.normal_uni s1.normal_uni = true ∧
          5 < r.area ∧ r.pid0 = s0.polygon_id ∧ r.pid1 = s1.polygon_id :=
  outerLoop_mem ops e0 e1 _ _ fw r hr

theorem findPartyWalls_area (ops : Ops) (e0 e1 : Entity) (fw : FreeW)
    (r : PWRecord) (hr : r ∈ (findPartyWalls ops e0 e1 fw).1) : 5 < r.area := by
  obtain ⟨_, _, _, _, _, h, _⟩ := findPartyWalls_mem ops e0 e1 fw r hr
  exact h

theorem selfInner_area (ops : Ops) (p0 : GPoly) (ps : List GPoly) :
    ∀ (fw : FreeW) (r : PWRecord), r ∈ (selfInner ops p0 ps fw).1 →
      5 < r.area := by
  induction ps with
  | nil => intro fw r hr; simp [selfInner] at hr
  | cons p1 rest ih =>
    intro fw r hr
    by_cases hg : ops.groundHit p0.coor p1.coor
    · simp only [selfInner, if_pos hg, List.mem_append] at hr
      rcases hr with hr | hr
      · exact findPartyWalls_area ops _ _ _ r hr
      · exact ih _ r hr
    · simp only [selfInner, if_neg hg] at hr
      exact ih _ r hr

theorem selfLoop_area (ops : Ops) (ps : List GPoly) :
    ∀ (fw : FreeW) (r : PWRecord), r ∈ (selfLoop ops ps fw).1 → 5 < r.area := by
  induction ps with
  | nil => intro fw r hr; simp [selfLoop] at hr
  | cons p0 rest ih =>
    intro fw r hr
    simp only [selfLoop, List.mem_append] at hr
    rcases hr with hr | hr
    · exact selfInner_area ops p0 rest fw r hr
    · exact ih _ r hr

theorem crossMainPoly_area (ops : Ops) (b1 : Entity) (p0 : GPoly) (fw : FreeW)
    (r : PWRecord) (hr : r ∈ (crossMainPoly ops b1 p0 fw).1) : 5 < r.area := by
  unfold crossMainPoly at hr
  split at hr
  · exact findPartyWalls_area ops _ _ _ r hr
  · simp at hr

theorem crossMainLoop_area (ops : Ops) (b1 : Entity) (ps : List GPoly) :
    ∀ (fw : FreeW) (r : PWRecord), r ∈ (crossMainLoop ops b1 ps fw).1 →
      5 < r.area := by
  induction ps with
  | nil => intro fw r hr; simp [crossMainLoop] at hr
  | cons p rest ih =>
    intro fw r hr
    simp only [crossMainLoop, List.mem_append] at hr
    rcases hr with hr | hr
    · exact crossMainPoly_area ops b1 p fw r hr
    · exact ih _ r hr

theorem crossPartLoop_area (ops : Ops) (b1id : String) (polys : List GPoly)
    (parts : List Entity) :
    ∀ (st : OrchSt) (r : PWRecord),
      r ∈ (crossPartLoop ops b1id polys parts st).1 → 5 < r.area := by
  induction parts with
  | nil => intro st r hr; simp [crossPartLoop] at hr
  | cons part rest ih =>
    intro st r hr
    by_cases h3 : hasThreeDGeometry part
    · simp only [crossPartLoop, if_pos h3, List.mem_append] at hr
      rcases hr with hr | hr
      · exact crossMainLoop_area ops part polys _ r hr
      · exact ih _ r hr
    · simp only [crossPartLoop, if_neg h3] at hr
      exact ih _ r hr

theorem crossBuilding_area (ops : Ops) (polys : List GPoly) (b1 : Building)
    (st : OrchSt) (r : PWRecord)
    (hr : r ∈ (crossBuilding ops polys b1 st).1) : 5 < r.area := by
  simp only [crossBuilding, List.mem_append] at hr
  rcases hr with hr | hr
  · split at hr
    · exact crossMainLoop_area ops b1.ent polys _ r hr
    · simp at hr
  · exact crossPartLoop_area ops b1.ent.gml_id polys b1.bparts _ r hr

theorem crossAll_area (ops : Ops) (polys : List GPoly) (bs : List Building) :
    ∀ (st : OrchSt) (r : PWRecord), r ∈ (crossAll ops polys bs st).1 →
      5 < r.area := by
  induction bs with
  | nil => intro st r hr; simp [crossAll] at hr
  | cons b1 rest ih =>
    intro st r hr
    simp only [crossAll, List.mem_append] at hr
    rcases hr with hr | hr
    · exact crossBuilding_area ops polys b1 st r hr
    · exact ih _ r hr

theorem mainLoop_area (ops : Ops) (ds : List Building) (bs : List Building) :
    ∀ (st : OrchSt) (r : PWRecord), r ∈ (mainLoop ops ds bs st).1 →
      5 < r.area := by
  induction bs with
  | nil => intro st r hr; simp [mainLoop] at hr
  | cons b0 rest ih =>
    intro st r hr
    simp only [mainLoop, List.mem_append] at hr
    rcases hr with (hr | hr) | hr
    · exact selfLoop_area ops _ _ r hr
    · exact crossAll_area ops _ rest _ r hr
    · exact ih _ r hr

theorem getPartyWalls_area (ops : Ops) (ds : List Building) (fw0 : FreeW)
    (r : PWRecord) (hr : r ∈ (getPartyWalls ops ds fw0).1) : 5 < r.area :=
  mainLoop_area ops ds ds _ r hr

/-! ## Helper lemmas: the free-wall counter invariant

The potential `fw e - hInd hit` is preserved by every emission: a decrement
of an entity counter happens exactly when the corresponding hit flag flips
from `false` to `true`. -/

theorem collectFold_inv (ops : Ops) (e0 e1 : Entity) (s0 s1 : SurfaceE)
    (rd : RotData) (hne : e0 ≠ e1) (items : List SlyItem) :
    ∀ (h0 h1 : Bool) (fw : FreeW),
      ((collectFold ops e0 e1 s0 s1 rd items h0 h1 fw).2.2.2 e0 -
          hInd (collectFold ops e0 e1 s0 s1 rd items h0 h1 fw).2.1 =
        fw e0 - hInd h0) ∧
      ((collectFold ops e0 e1 s0 s1 rd items h0 h1 fw).2.2.2 e1 -
          hInd (collectFold ops e0 e1 s0 s1 rd items h0 h1 fw).2.2.1 =
        fw e1 - hInd h1) := by
  induction items with
  | nil => intro h0 h1 fw; simp [collectFold]
  | cons g gs ih =>
    intro h0 h1 fw
    cases g with
    | ipoly ring2 a =>
      by_cases ha : 5 < a
      · simp only [collectFold, if_pos ha]
        refine ⟨?_, ?_⟩
        · rw [(ih true true _).1]
          cases h0 <;> cases h1 <;> simp [decFW, hInd, hne, Ne.symm hne]
        · rw [(ih true true _).2]
          cases h0 <;> cases h1 <;> simp [decFW, hInd, hne, Ne.symm hne]
      · simp only [collectFold, if_neg ha]
        exact ih h0 h1 fw
    | iother a =>
      simp only [collectFold]
      exact ih h0 h1 fw

theorem processIntersection_inv (ops : Ops) (e0 e1 : Entity) (s0 s1 : SurfaceE)
    (rd : RotData) (hne : e0 ≠ e1) (h : Bool) (fw : FreeW) :
    ((processIntersection ops e0 e1 s0 s1 rd h fw).2.2 e0 -
        hInd (processIntersection ops e0 e1 s0 s1 rd h fw).2.1 =
      fw e0 - hInd h) ∧
    (fw e1 - 1 ≤ (processIntersection ops e0 e1 s0 s1 rd h fw).2.2 e1) := by
  simp only [processIntersection]
  cases hcase : ops.intersect (List.map (fun p => (p.1, p.2.2)) rd.poly0)
      (List.map (fun p => (p.1, p.2.2)) rd.poly1) with
  | empty =>
    simp only [reduceIte]
    refine ⟨trivial, ?_⟩
    show fw e1 - 1 ≤ fw e1
    omega
  | poly ring2 a =>
    by_cases ha : 5 < a
    · simp only [slyArea, if_pos ha, reduceCtorEq, if_false]
      refine ⟨?_, ?_⟩
      · cases h <;> simp [decFW, hInd, hne, Ne.symm hne]
      · cases h <;> simp [decFW, hInd, hne, Ne.symm hne]
    · simp only [slyArea, if_neg ha, reduceCtorEq, if_false]
      refine ⟨trivial, ?_⟩
      show fw e1 - 1 ≤ fw e1
      omega
  | collection items =>
    by_cases ha : 5 < slyArea (SlyGeom.collection items)
    · simp only [if_pos ha, reduceCtorEq, if_false]
      obtain ⟨i0, i1⟩ := collectFold_inv ops e0 e1 s0 s1 rd hne items h false fw
      refine ⟨i0, ?_⟩
      have hnn : (0 : ℤ) ≤ hInd (collectFold ops e0 e1 s0 s1 rd items h false fw).2.2.1 := by
        cases hb : (collectFold ops e0 e1 s0 s1 rd items h false fw).2.2.1 <;> simp [hInd]
      simp only [hInd, if_neg Bool.false_ne_true] at i1
      omega
    · simp only [if_neg ha, reduceCtorEq, if_false]
      refine ⟨trivial, ?_⟩
      show fw e1 - 1 ≤ fw e1
      omega
  | other a =>
    simp only [reduceCtorEq, if_false, ite_self]
    refine ⟨trivial, ?_⟩
    show fw e1 - 1 ≤ fw e1
    omega

theorem processPair_inv (ops : Ops) (e0 e1 : Entity) (s0 s1 : SurfaceE)
    (hne : e0 ≠ e1) (h : Bool) (fw : FreeW) :
    ((processPair ops e0 e1 s0 s1 h fw).2.2 e0 -
        hInd (processPair ops e0 e1 s0 s1 h fw).2.1 = fw e0 - hInd h) ∧
    (fw e1 - 1 ≤ (processPair ops e0 e1 s0 s1 h fw).2.2 e1) := by
  unfold processPair
  by_cases hal : alignedTest s0.normal_uni s1.normal_uni
  · rw [if_pos hal]
    by_cases hg : (3 : ℚ) / 20 <
        |meanY (rotationData ops s0 s1).poly0 - meanY (rotationData ops s0 s1).poly1|
    · rw [if_pos hg]
      refine ⟨rfl, ?_⟩
      show fw e1 - 1 ≤ fw e1
      omega
    · rw [if_neg hg]
      exact processIntersection_inv ops e0 e1 s0 s1 _ hne h fw
  · rw [if_neg hal]
    refine ⟨rfl, ?_⟩
    show fw e1 - 1 ≤ fw e1
    omega

theorem innerLoop_fw0 (ops : Ops) (e0 e1 : Entity) (s0 : SurfaceE)
    (hne : e0 ≠ e1) (s1s : List SurfaceE) :
    ∀ (h : Bool) (fw : FreeW),
      fw e0 - hInd h ≤ (innerLoop ops e0 e1 s0 s1s h fw).2 e0 := by
  induction s1s with
  | nil =>
    intro h fw
    have : (0 : ℤ) ≤ hInd h := by cases h <;> simp [hInd]
    simp [innerLoop]; omega
  | cons s1 rest ih =>
    intro h fw
    simp only [innerLoop]
    have hpp := (processPair_inv ops e0 e1 s0 s1 hne h fw).1
    have hrest := ih (processPair ops e0 e1 s0 s1 h fw).2.1
      (processPair ops e0 e1 s0 s1 h fw).2.2
    omega

/-! ## Helper lemmas: rejection and record shapes -/

theorem alignedTest_eq_false {n0 n1 : Q3} (h1 : n0 ≠ n1) (h2 : n0 ≠ neg3 n1)
    (h3 : |dot3 n0 n1| ≤ 9659 / 10000) : alignedTest n0 n1 = false := by
  simp only [alignedTest, Bool.or_eq_false_iff, decide_eq_false_iff_not]
  exact ⟨⟨h1, h2⟩, not_lt.mpr h3⟩

theorem processPair_not_aligned (ops : Ops) (e0 e1 : Entity) (s0 s1 : SurfaceE)
    (hal : alignedTest s0.normal_uni s1.normal_uni = false) (h : Bool)
    (fw : FreeW) : processPair ops e0 e1 s0 s1 h fw = ([], h, fw) := by
  simp [processPair, hal]

theorem collectFold_records (ops : Ops) (e0 e1 : Entity) (s0 s1 : SurfaceE)
    (rd : RotData) (items : List SlyItem) :
    ∀ (h0 h1 : Bool) (fw : FreeW),
      (collectFold ops e0 e1 s0 s1 rd items h0 h1 fw).1 =
        items.filterMap (fun g => match g with
          | SlyItem.ipoly ring2 a =>
            if 5 < a then some (mkRec ops e0 e1 s0 s1 rd ring2 a) else none
          | SlyItem.iother _ => none) := by
  induction items with
  | nil => intro h0 h1 fw; simp [collectFold]
  | cons g gs ih =>
    intro h0 h1 fw
    cases g with
    | ipoly ring2 a =>
      by_cases ha : 5 < a
      · simp only [collectFold, if_pos ha, List.filterMap_cons]
        simp [if_pos ha, ih true true]
      · simp only [collectFold, if_neg ha, List.filterMap_cons]
        simp [if_neg ha, ih h0 h1]
    | iother a =>
      simp only [collectFold, List.filterMap_cons]
      exact ih h0 h1 fw

theorem rotationData_intersect_irrel (a : ℚ → ℚ → ℚ)
    (rot : List Q3 → Q3 → ℚ → List Q3) (f f' : List Q2 → List Q2 → SlyGeom)
    (g g' : List Q3 → List Q3 → Bool) (s0 s1 : SurfaceE) :
    rotationData (Ops.mk a rot f g) s0 s1 =
      rotationData (Ops.mk a rot f' g') s0 s1 := rfl

/-! ## Helper lemmas: the `SurfaceGML` constructor -/

theorem mkSurfaceGML_valid_iff (gml : List ℚ) (t : Option String) :
    (mkSurfaceGML gml t).isSurface = true ↔
      12 ≤ 3 * (collapseSurface gml).length := by
  unfold mkSurfaceGML
  by_cases hc : 3 * (collapseSurface gml).length < 12
  · rw [if_pos hc]
    simpa using by omega
  · rw [if_neg hc]
    simpa using by omega

theorem mkSurfaceGML_invalid (gml : List ℚ) (t : Option String)
    (h : (mkSurfaceGML gml t).isSurface = false) :
    (mkSurfaceGML gml t).normalF = none ∧ (mkSurfaceGML gml t).areaF = none ∧
      (mkSurfaceGML gml t).tiltF = none ∧ (mkSurfaceGML gml t).orientF = none ∧
      (mkSurfaceGML gml t).stypeF = t := by
  unfold mkSurfaceGML at *
  by_cases hc : 3 * (collapseSurface gml).length < 12
  · rw [if_pos hc] at *
    exact ⟨rfl, rfl, rfl, rfl, rfl⟩
  · rw [if_neg hc] at h
    simp at h

theorem addSurfaceIfValid_invalid (l : List SurfaceModel) (s : SurfaceModel)
    (h : s.isSurface = false) : addSurfaceIfValid l s = l := by
  simp [addSurfaceIfValid, h]

theorem addSurfaceIfValid_valid (l : List SurfaceModel) (s : SurfaceModel)
    (h : s.isSurface = true) : addSurfaceIfValid l s = l ++ [s] := by
  simp [addSurfaceIfValid, h]

theorem subR_q3r (a b : Q3) : subR (q3r a) (q3r b) = q3r (sub3 a b) := by
  simp only [subR, q3r, sub3]
  refine congrArg₂ Prod.mk ?_ (congrArg₂ Prod.mk ?_ ?_) <;> push_cast <;> ring

theorem crossR_q3r (a b : Q3) : crossR (q3r a) (q3r b) = q3r (cross3 a b) := by
  simp only [crossR, q3r, cross3]
  refine congrArg₂ Prod.mk ?_ (congrArg₂ Prod.mk ?_ ?_) <;> push_cast <;> ring

theorem normR_zero : normR ((0 : ℝ), (0 : ℝ), (0 : ℝ)) = 0 := by
  simp [normR, dotR]

theorem calcUnitNormal_of_collinear (a b c : Q3)
    (h : cross3 (sub3 b a) (sub3 c a) = ((0 : ℚ), (0 : ℚ), (0 : ℚ))) :
    calcUnitNormal (q3r a) (q3r b) (q3r c) = ((0 : ℝ), (0 : ℝ), (0 : ℝ)) := by
  unfold calcUnitNormal
  have hc : crossR (subR (q3r b) (q3r a)) (subR (q3r c) (q3r a)) =
      ((0 : ℝ), (0 : ℝ), (0 : ℝ)) := by
    rw [subR_q3r, subR_q3r, crossR_q3r, h]
    simp [q3r]
  rw [hc, if_pos (by rw [normR_zero]; norm_num)]

theorem polyAreaR_zero_normal (poly : List Q3) :
    polyAreaR poly ((0 : ℝ), (0 : ℝ), (0 : ℝ)) = 0 := by
  unfold polyAreaR
  split
  · rfl
  · simp [dotR]

theorem gmlTilt_zero_normal : gmlTilt ((0 : ℝ), (0 : ℝ), (0 : ℝ)) = 90 := by
  unfold gmlTilt
  have h0 : min (max |(0 : ℝ)| (-1)) 1 = 0 := by norm_num
  have h90 : rad2deg (Real.arccos (min (max |(0 : ℝ)| (-1)) 1)) = 90 := by
    rw [h0, Real.arccos_zero]
    unfold rad2deg
    field_simp
    ring
  rw [h90]
  norm_num

/-! ## Helper lemmas: the rotation helper -/

theorem rotatePointXY_inv (c : R3) (θ : ℝ) (p : R3) :
    rotatePointXY c (-θ) (rotatePointXY c θ p) = p := by
  obtain ⟨px, py, pz⟩ := p
  obtain ⟨cx, cy, cz⟩ := c
  unfold rotatePointXY
  simp only [Real.cos_neg, Real.sin_neg]
  have h := Real.sin_sq_add_cos_sq θ
  refine congrArg₂ Prod.mk ?_ (congrArg₂ Prod.mk ?_ rfl)
  · linear_combination (px - cx) * h
  · linear_combination (py - cy) * h

theorem rotatePolyXY_inv (poly : List R3) (c : R3) (θ : ℝ) :
    rotatePolyXY (rotatePolyXY poly c θ) c (-θ) = poly := by
  unfold rotatePolyXY
  rw [List.map_map]
  have : ∀ p ∈ poly,
      (rotatePointXY c (-θ) ∘ rotatePointXY c θ) p = id p :=
    fun p _ => rotatePointXY_inv c θ p
  rw [List.map_congr_left this, List.map_id]

theorem mkSurfaceGML_degenerate (gml : List ℚ)
    (hlen : 12 ≤ 3 * (collapseSurface gml).length)
    (hcol : cross3
        (sub3 (nth3 (collapseSurface gml) 1) (nth3 (collapseSurface gml) 0))
        (sub3 (nth3 (collapseSurface gml) 2) (nth3 (collapseSurface gml) 0)) =
      ((0 : ℚ), (0 : ℚ), (0 : ℚ))) :
    (mkSurfaceGML gml none).isSurface = true ∧
      (mkSurfaceGML gml none).normalF = some ((0 : ℝ), (0 : ℝ), (0 : ℝ)) ∧
      (mkSurfaceGML gml none).areaF = some 0 ∧
      (mkSurfaceGML gml none).tiltF = some 90 ∧
      (mkSurfaceGML gml none).stypeF = some "WallSurface" := by
  have hn : calcUnitNormal (q3r (nth3 (collapseSurface gml) 0))
      (q3r (nth3 (collapseSurface gml) 1)) (q3r (nth3 (collapseSurface gml) 2)) =
      ((0 : ℝ), (0 : ℝ), (0 : ℝ)) :=
    calcUnitNormal_of_collinear _ _ _ hcol
  unfold mkSurfaceGML
  rw [if_neg (by omega)]
  simp only [hn, polyAreaR_zero_normal, gmlTilt_zero_normal]
  refine ⟨trivial, trivial, trivial, trivial, ?_⟩
  have h1 : ¬((90 : ℝ) = 0 ∧ gmlOrient ((0 : ℝ), (0 : ℝ), (0 : ℝ)) = -2) := by
    rintro ⟨h, -⟩
    norm_num at h
  rw [if_neg h1]
  simp

theorem hasThreeDGeometry_iff (e : Entity) :
    hasThreeDGeometry e = true ↔
      ∃ g ∈ e.geometries,
        geomGetSurfaces g ["RoofSurface"] ≠ [] ∧
        geomGetSurfaces g ["GroundSurface"] ≠ [] ∧
        (geomGetSurfaces g ["WallSurface"] ≠ [] ∨
         geomGetSurfaces g ["ClosureSurface"] ≠ []) := by
  simp [hasThreeDGeometry, List.any_eq_true, List.isEmpty_iff, and_assoc]

theorem crossMainPoly_trace_len (ops : Ops) (b1 : Entity) (p0 : GPoly)
    (fw : FreeW) : (crossMainPoly ops b1 p0 fw).2.1.length ≤ 1 := by
  unfold crossMainPoly
  split <;> simp

theorem crossMainLoop_trace_len (ops : Ops) (b1 : Entity) (ps : List GPoly) :
    ∀ fw : FreeW, (crossMainLoop ops b1 ps fw).2.1.length ≤ ps.length := by
  induction ps with
  | nil => intro fw; simp [crossMainLoop]
  | cons p rest ih =>
    intro fw
    simp only [crossMainLoop, List.length_append, List.length_cons]
    have h1 := crossMainPoly_trace_len ops b1 p fw
    have h2 := ih (crossMainPoly ops b1 p fw).2.2
    omega

/-! ## The claims -/

/-- C1: for every pair of wall-or-closure surfaces examined by the resolver,
if the two unit normals are not exactly equal, not exactly opposite, and the
absolute value of their dot product is at most 0.9659, the pair is rejected
and no party-wall record naming those two surfaces is ever emitted,
regardless of the positions of the surfaces. -/
theorem claim_C1 (ops : Ops) (e0 e1 : Entity) (fw : FreeW) (s0 s1 : SurfaceE)
    (hm0 : s0 ∈ getSurfaces e0 ["WallSurface", "ClosureSurface"])
    (hm1 : s1 ∈ getSurfaces e1 ["WallSurface", "ClosureSurface"])
    (hn0 : ((getSurfaces e0 ["WallSurface", "ClosureSurface"]).map
      SurfaceE.polygon_id).Nodup)
    (hn1 : ((getSurfaces e1 ["WallSurface", "ClosureSurface"]).map
      SurfaceE.polygon_id).Nodup)
    (hne : s0.normal_uni ≠ s1.normal_uni)
    (hno : s0.normal_uni ≠ neg3 s1.normal_uni)
    (hdot : |dot3 s0.normal_uni s1.normal_uni| ≤ 9659 / 10000) :
    (∀ (h : Bool) (fw' : FreeW),
      processPair ops e0 e1 s0 s1 h fw' = ([], h, fw')) ∧
    ∀ r ∈ (findPartyWalls ops e0 e1 fw).1,
      ¬(r.pid0 = s0.polygon_id ∧ r.pid1 = s1.polygon_id) := by
  have hal := alignedTest_eq_false hne hno hdot
  refine ⟨fun h fw' => processPair_not_aligned ops e0 e1 s0 s1 hal h fw', ?_⟩
  rintro r hr ⟨hp0, hp1⟩
  obtain ⟨s0', hm0', s1', hm1', hal', _, hq0, hq1⟩ :=
    findPartyWalls_mem ops e0 e1 fw r hr
  have he0 : s0' = s0 :=
    List.inj_on_of_nodup_map hn0 hm0' hm0 (by rw [← hq0, hp0])
  have he1 : s1' = s1 :=
    List.inj_on_of_nodup_map hn1 hm1' hm1 (by rw [← hq1, hp1])
  rw [he0, he1, hal] at hal'
  exact Bool.false_ne_true hal'

/-- C1 witness: two concrete walls with normals `(0,1,0)` and `(1,0,0)`
(coincident in position) are rejected. -/
theorem claim_C1_witness :
    processPair rectOps entA entD wA1 wD false zeroFW = ([], false, zeroFW) :=
  (claim_C1 rectOps entA entD zeroFW wA1 wD (by decide) (by decide) (by decide)
    (by decide) (by decide) (by decide) (by decide)).1 false zeroFW

/-- C2: every record emitted by the resolver, and hence every record
returned by the dataset-level orchestration, carries a contact area strictly
greater than 5; an intersection result or piece with area at most 5
contributes no record. -/
theorem claim_C2 :
    (∀ (ops : Ops) (e0 e1 : Entity) (fw : FreeW) (r : PWRecord),
      r ∈ (findPartyWalls ops e0 e1 fw).1 → 5 < r.area) ∧
    ∀ (ops : Ops) (ds : List Building) (fw0 : FreeW) (r : PWRecord),
      r ∈ (getPartyWalls ops ds fw0).1 → 5 < r.area :=
  ⟨findPartyWalls_area, getPartyWalls_area⟩

/-- C2 witness: the concrete coincident pair produces the record of area 50
and the theorem yields its area bound. -/
theorem claim_C2_witness :
    recA1B ∈ (findPartyWalls rectOps entA entB fw6).1 ∧ 5 < recA1B.area :=
  ⟨by decide, claim_C2.1 rectOps entA entB fw6 recA1B (by decide)⟩

/-- C3: for a pair passing the normal-alignment test, if the mean rotated y
coordinates of the two rings differ by more than 0.15 the pair is rejected
before any 2D intersection is computed (the outcome does not depend on the
intersection backend) and contributes no record; a pair within 0.15
proceeds to the intersection step. -/
theorem claim_C3 :
    (∀ (ops : Ops) (f : List Q2 → List Q2 → SlyGeom) (e0 e1 : Entity)
      (s0 s1 : SurfaceE) (h : Bool) (fw : FreeW),
      alignedTest s0.normal_uni s1.normal_uni = true →
      (3 : ℚ) / 20 < |meanY (rotationData ops s0 s1).poly0 -
        meanY (rotationData ops s0 s1).poly1| →
      processPair (Ops.mk ops.atan2 ops.rotate f ops.groundHit) e0 e1 s0 s1
        h fw = ([], h, fw)) ∧
    ∀ (ops : Ops) (e0 e1 : Entity) (s0 s1 : SurfaceE) (h : Bool) (fw : FreeW),
      alignedTest s0.normal_uni s1.normal_uni = true →
      |meanY (rotationData ops s0 s1).poly0 -
        meanY (rotationData ops s0 s1).poly1| ≤ (3 : ℚ) / 20 →
      processPair ops e0 e1 s0 s1 h fw =
        processIntersection ops e0 e1 s0 s1 (rotationData ops s0 s1) h fw := by
  constructor
  · intro ops f e0 e1 s0 s1 h fw hal hg
    have hrd : rotationData (Ops.mk ops.atan2 ops.rotate f ops.groundHit) s0 s1 =
        rotationData ops s0 s1 := by
      cases ops
      rfl
    unfold processPair
    rw [if_pos hal, hrd, if_pos hg]
  · intro ops e0 e1 s0 s1 h fw hal hg
    unfold processPair
    rw [if_pos hal, if_neg (not_lt.mpr hg)]

/-- C3 witness: parallel coincident-extent walls offset by 0.2 are rejected
with the concrete rectangle backend. -/
theorem claim_C3_witness :
    processPair rectOps entA entE wA1 w3b false zeroFW = ([], false, zeroFW) :=
  claim_C3.1 rectOps rectIntersect entA entE wA1 w3b false zeroFW (by decide)
    (by decide)

/-- C4: when the 2D intersection of an accepted pair decomposes into a
geometry collection, the resolver emits one record per polygon piece whose
area exceeds 5, filtering each piece independently against the area gate
(pieces of area at most 5, and non-polygon members, contribute nothing). -/
theorem claim_C4 (ops : Ops) (e0 e1 : Entity) (s0 s1 : SurfaceE) (h : Bool)
    (fw : FreeW) (items : List SlyItem)
    (hal : alignedTest s0.normal_uni s1.normal_uni = true)
    (hg : |meanY (rotationData ops s0 s1).poly0 -
      meanY (rotationData ops s0 s1).poly1| ≤ (3 : ℚ) / 20)
    (hi : ops.intersect
        ((rotationData ops s0 s1).poly0.map (fun p => (p.1, p.2.2)))
        ((rotationData ops s0 s1).poly1.map (fun p => (p.1, p.2.2))) =
      SlyGeom.collection items)
    (hnn : ∀ g ∈ items, 0 ≤ itemArea g) :
    (processPair ops e0 e1 s0 s1 h fw).1 =
      items.filterMap (fun g => match g with
        | SlyItem.ipoly ring2 a =>
          if 5 < a then
            some (mkRec ops e0 e1 s0 s1 (rotationData ops s0 s1) ring2 a)
          else none
        | SlyItem.iother _ => none) := by
  unfold processPair
  rw [if_pos hal, if_neg (not_lt.mpr hg)]
  simp only [processIntersection, hi]
  by_cases ha : 5 < slyArea (SlyGeom.collection items)
  · simp only [if_pos ha, reduceCtorEq, if_false]
    exact collectFold_records ops e0 e1 s0 s1 _ items h false fw
  · simp only [if_neg ha, reduceCtorEq, if_false]
    have : ∀ g ∈ items, (fun g => match g with
        | SlyItem.ipoly ring2 a =>
          if 5 < a then
            some (mkRec ops e0 e1 s0 s1 (rotationData ops s0 s1) ring2 a)
          else none
        | SlyItem.iother _ => none) g = none := by
      intro g hg'
      cases g with
      | ipoly ring2 a =>
        have hle : itemArea (SlyItem.ipoly ring2 a) ≤ (items.map itemArea).sum :=
          List.single_le_sum
            (fun x hx => by
              obtain ⟨g2, hg2, rfl⟩ := List.mem_map.mp hx
              exact hnn g2 hg2)
            _ (List.mem_map_of_mem itemArea hg')
        simp only [slyArea, not_lt] at ha
        simp only [itemArea] at hle
        simp [not_lt.mpr (le_trans hle ha)]
      | iother a => rfl
    exact (List.filterMap_eq_nil_iff.mpr this).symm

/-- C4 witness: a backend returning a two-polygon collection with areas 6
and 3 plus a degenerate member produces exactly the area-6 record. -/
theorem claim_C4_witness :
    (processPair ops4 entA entB wA1 wB false zeroFW).1 =
      items4.filterMap (fun g => match g with
        | SlyItem.ipoly ring2 a =>
          if 5 < a then
            some (mkRec ops4 entA entB wA1 wB (rotationData ops4 wA1 wB) ring2 a)
          else none
        | SlyItem.iother _ => none) :=
  claim_C4 ops4 entA entB wA1 wB false zeroFW items4 (by decide) (by decide)
    (by decide) (by decide)

/-- C5 (amended): in the cross-building phase, each gathered ground polygon
of the earlier building group triggers at most one resolver invocation
against a given later building-like entity (the scan over that entity's
grounds breaks at the first hit), and the invocations against one entity
are bounded by the number of gathered ground polygons — not by one per
unordered building pair. -/
theorem claim_C5 :
    (∀ (ops : Ops) (b1 : Entity) (p0 : GPoly) (fw : FreeW),
      (crossMainPoly ops b1 p0 fw).2.1.length ≤ 1) ∧
    ∀ (ops : Ops) (b1 : Entity) (polys : List GPoly) (fw : FreeW),
      (crossMainLoop ops b1 polys fw).2.1.length ≤ polys.length :=
  ⟨crossMainPoly_trace_len, fun ops b1 polys fw =>
    crossMainLoop_trace_len ops b1 polys fw⟩

/-- C5 counterexample: in the two-building dataset `ds5`, building A5 has
two ground polygons near building B5, and the orchestration hands the
unordered pair (A5, B5) to the resolver twice — not at most once. -/
theorem claim_C5_counterexample :
    ((getPartyWalls rectOps ds5 zeroFW).2.1).count (entA5, entB5) = 2 := by
  decide

/-- C6 (amended): within one resolver invocation on distinct entities, each
side-0 wall surface causes at most one decrement of entity 0's counter over
the whole scan of side-1 surfaces, and within one surface pair entity 1's
counter is decremented at most once; but the side-1 hit flag is reset for
every pair, so a side-1 wall matched by several side-0 walls decrements
entity 1's counter once per matching side-0 wall — the per-surface
exactly-once property fails on side 1. -/
theorem claim_C6 (ops : Ops) (e0 e1 : Entity) (hne : e0 ≠ e1)
    (s0 s1 : SurfaceE) (s1s : List SurfaceE) (h : Bool) (fw : FreeW) :
    (fw e0 - 1 ≤ (innerLoop ops e0 e1 s0 s1s false fw).2 e0) ∧
    (fw e1 - 1 ≤ (processPair ops e0 e1 s0 s1 h fw).2.2 e1) := by
  constructor
  · have := innerLoop_fw0 ops e0 e1 s0 hne s1s false fw
    simp only [hInd, if_neg Bool.false_ne_true] at this
    exact this
  · exact (processPair_inv ops e0 e1 s0 s1 hne h fw).2

/-- C6 witness: the amended bounds at the concrete coincident pair. -/
theorem claim_C6_witness :
    (fw6 entA - 1 ≤
      (innerLoop rectOps entA entB wA1
        (getSurfaces entB ["WallSurface", "ClosureSurface"]) false fw6).2
        entA) ∧
    (fw6 entB - 1 ≤ (processPair rectOps entA entB wA1 wB false fw6).2.2 entB) :=
  claim_C6 rectOps entA entB (by decide) wA1 wB
    (getSurfaces entB ["WallSurface", "ClosureSurface"]) false fw6

/-- C6 counterexample: building B has ONE wall (`wB`, counter 1), it is
matched by both walls of building A, both records name `wB`, and its
counter drops by 2 to -1 — refuting the at-most-one-decrement claim. -/
theorem claim_C6_counterexample :
    fw6 entB = 1 ∧
    ((findPartyWalls rectOps entA entB fw6).1.map PWRecord.pid1) =
      ["wB", "wB"] ∧
    (findPartyWalls rectOps entA entB fw6).2 entB = -1 := by
  refine ⟨by decide, by decide, by decide⟩

/-- C7 (amended): the constructor marks a surface invalid exactly when fewer
than 4 coordinate triples (12 flat coordinates) remain after collinearity
collapse, and an invalid surface has no normal, area, tilt, orientation or
inferred type and is never added to a geometry by the loading guard; but a
zero cross product of the first retained points does NOT mark the surface
invalid — the normal is stored as the zero vector and the surface stays
valid. -/
theorem claim_C7 :
    (∀ (gml : List ℚ) (t : Option String),
      (mkSurfaceGML gml t).isSurface = true ↔
        12 ≤ 3 * (collapseSurface gml).length) ∧
    (∀ (gml : List ℚ) (t : Option String),
      (mkSurfaceGML gml t).isSurface = false →
      (mkSurfaceGML gml t).normalF = none ∧ (mkSurfaceGML gml t).areaF = none ∧
        (mkSurfaceGML gml t).tiltF = none ∧
        (mkSurfaceGML gml t).orientF = none ∧
        (mkSurfaceGML gml t).stypeF = t) ∧
    ∀ (l : List SurfaceModel) (s : SurfaceModel),
      s.isSurface = false → addSurfaceIfValid l s = l :=
  ⟨mkSurfaceGML_valid_iff, mkSurfaceGML_invalid, addSurfaceIfValid_invalid⟩

/-- C7 witness: the degenerate three-point ring is invalid, carries no
attributes, and the loading guard drops it. -/
theorem claim_C7_witness :
    (mkSurfaceGML exBad none).isSurface = false ∧
    (mkSurfaceGML exBad none).normalF = none ∧
    addSurfaceIfValid [] (mkSurfaceGML exBad none) = [] := by
  have hf : (mkSurfaceGML exBad none).isSurface = false := by
    have h := claim_C7.1 exBad none
    cases hb : (mkSurfaceGML exBad none).isSurface
    · rfl
    · have := h.mp hb
      revert this
      decide
  exact ⟨hf, (claim_C7.2.1 exBad none hf).1, claim_C7.2.2 [] _ hf⟩

/-- C7 counterexample: `ex7` keeps five retained points (more than 12 flat
coordinates) whose first three are collinear — the cross product is the
zero vector — yet the surface is marked VALID, refuting the claim that a
zero cross product marks the surface invalid. -/
theorem claim_C7_counterexample :
    cross3
        (sub3 (nth3 (collapseSurface ex7) 1) (nth3 (collapseSurface ex7) 0))
        (sub3 (nth3 (collapseSurface ex7) 2) (nth3 (collapseSurface ex7) 0)) =
      ((0 : ℚ), (0 : ℚ), (0 : ℚ)) ∧
    (mkSurfaceGML ex7 none).isSurface = true := by
  refine ⟨by decide, ?_⟩
  rw [mkSurfaceGML_valid_iff]
  decide

/-- C8: rotating any point about any pivot by θ in the x-y plane and then
by -θ about the same pivot reconstructs the point within 1e-9 in each
coordinate (in the real-number model it is exact), and both rotations leave
the z coordinate exactly unchanged; the polygon-level round trip is the
identity. -/
theorem claim_C8 (c : R3) (θ : ℝ) (p : R3) :
    |(rotatePointXY c (-θ) (rotatePointXY c θ p)).1 - p.1| ≤ 1 / 1000000000 ∧
    |(rotatePointXY c (-θ) (rotatePointXY c θ p)).2.1 - p.2.1| ≤
      1 / 1000000000 ∧
    (rotatePointXY c θ p).2.2 = p.2.2 ∧
    (rotatePointXY c (-θ) (rotatePointXY c θ p)).2.2 = p.2.2 ∧
    ∀ poly : List R3, rotatePolyXY (rotatePolyXY poly c θ) c (-θ) = poly := by
  have hp := rotatePointXY_inv c θ p
  refine ⟨?_, ?_, rfl, ?_, fun poly => rotatePolyXY_inv poly c θ⟩
  · rw [hp]
    norm_num
  · rw [hp]
    norm_num
  · rw [hp]

/-- C9 (amended): the has-3D-geometry predicate holds iff SOME single
geometry of the entity has a non-empty roof collection, a non-empty ground
collection, and a non-empty wall or closure collection; with surfaces
spread over several geometries the entity-level collections can all be
non-empty while the predicate is false. -/
theorem claim_C9 (e : Entity) :
    hasThreeDGeometry e = true ↔
      ∃ g ∈ e.geometries,
        geomGetSurfaces g ["RoofSurface"] ≠ [] ∧
        geomGetSurfaces g ["GroundSurface"] ≠ [] ∧
        (geomGetSurfaces g ["WallSurface"] ≠ [] ∨
         geomGetSurfaces g ["ClosureSurface"] ≠ []) :=
  hasThreeDGeometry_iff e

/-- C9 counterexample: an entity with its roof in one geometry and its
ground and wall in another has non-empty entity-level roof, ground and wall
collections but the predicate returns false — refuting the entity-level
if-and-only-if. -/
theorem claim_C9_counterexample :
    hasThreeDGeometry entC9 = false ∧
    getSurfaces entC9 ["RoofSurface"] ≠ [] ∧
    getSurfaces entC9 ["GroundSurface"] ≠ [] ∧
    getSurfaces entC9 ["WallSurface"] ≠ [] := by
  refine ⟨by decide, by decide, by decide, by decide⟩

/-- C10: a surface that keeps at least 4 points after collinearity collapse
but whose first three retained points are collinear is constructed as VALID
with unit normal the zero vector, area 0, tilt 90 degrees, inferred type
WallSurface when none was given — and the loading guard adds it to a
geometry, so it is eligible for party-wall comparison. -/
theorem claim_C10 (gml : List ℚ)
    (hlen : 12 ≤ 3 * (collapseSurface gml).length)
    (hcol : cross3
        (sub3 (nth3 (collapseSurface gml) 1) (nth3 (collapseSurface gml) 0))
        (sub3 (nth3 (collapseSurface gml) 2) (nth3 (collapseSurface gml) 0)) =
      ((0 : ℚ), (0 : ℚ), (0 : ℚ))) :
    (mkSurfaceGML gml none).isSurface = true ∧
      (mkSurfaceGML gml none).normalF = some ((0 : ℝ), (0 : ℝ), (0 : ℝ)) ∧
      (mkSurfaceGML gml none).areaF = some 0 ∧
      (mkSurfaceGML gml none).tiltF = some 90 ∧
      (mkSurfaceGML gml none).stypeF = some "WallSurface" ∧
      addSurfaceIfValid [] (mkSurfaceGML gml none) = [mkSurfaceGML gml none] := by
  obtain ⟨h1, h2, h3, h4, h5⟩ := mkSurfaceGML_degenerate gml hlen hcol
  exact ⟨h1, h2, h3, h4, h5, addSurfaceIfValid_valid [] _ h1⟩

/-- C10 witness: the collinear five-point ring `ex7` satisfies both
hypotheses and yields the degenerate valid wall surface. -/
theorem claim_C10_witness :
    (mkSurfaceGML ex7 none).isSurface = true ∧
      (mkSurfaceGML ex7 none).normalF = some ((0 : ℝ), (0 : ℝ), (0 : ℝ)) ∧
      (mkSurfaceGML ex7 none).areaF = some 0 ∧
      (mkSurfaceGML ex7 none).tiltF = some 90 ∧
      (mkSurfaceGML ex7 none).stypeF = some "WallSurface" ∧
      addSurfaceIfValid [] (mkSurfaceGML ex7 none) = [mkSurfaceGML ex7 none] :=
  claim_C10 ex7 (by decide) (by decide)

end CityDPC
